import Mathlib

/-!
Verification of the free-tier response engine core of the Milana backend
repository: the memory vault (frontend/scripts/memory.js), the knowledge
hub (frontend/scripts/knowledge.js), the free-tier engine
(frontend/scripts/free-tier.js) and the GPT integration layer (gpt.js).
JavaScript strings are modelled as Lean strings (lists of characters),
machine time as integers (milliseconds), storage as the decoded value it
holds, and promise rejection as the error side of Except.
-/

namespace Milana

/-- Whitespace characters recognised by the JavaScript regular expression
class backslash-s and by String.prototype.trim, restricted to the ASCII
range that the repository ever produces. -/
def isWs (c : Char) : Bool :=
  c = ' ' || c = '\t' || c = '\n' || c = '\r' || c = '\x0b' || c = '\x0c'

/-- Model of JavaScript String.prototype.trim on the character list. -/
def jsTrimList (l : List Char) : List Char :=
  ((l.dropWhile isWs).reverse.dropWhile isWs).reverse

/-- Model of JavaScript String.prototype.trim. -/
def jsTrim (s : String) : String :=
  String.mk (jsTrimList s.data)

theorem jsTrim_empty : jsTrim "" = "" := rfl

/-- Maps every whitespace character to a plain space (first half of the
replace of a whitespace run by one space). -/
def toSpace (c : Char) : Char :=
  if isWs c then ' ' else c

/-- Collapses runs of spaces to a single space (second half of the
replace of a whitespace run by one space). -/
def squeeze : List Char → List Char
  | [] => []
  | [c] => [c]
  | a :: b :: r =>
    if a = ' ' && b = ' ' then squeeze (b :: r) else a :: squeeze (b :: r)

/-- Model of replace(backslash-s+, one space) applied globally: every
maximal run of whitespace becomes a single space. -/
def wsReplace (s : String) : String :=
  String.mk (squeeze (s.data.map toSpace))

end Milana

namespace Milana.Memory

/-- memory.js sanitise: collapse whitespace runs to one space, then trim. -/
def sanitise (value : String) : String :=
  jsTrim (wsReplace value)

/-- One stored conversational turn (memory.js entry shape). -/
structure MemoryEntry where
  user : String
  assistant : String
  timestamp : String
deriving DecidableEq, Repr

/-- Model of JavaScript Array.prototype.slice with a negated argument:
entries.slice(-n).  For n = 0 JavaScript evaluates slice(0) and keeps the
whole array; for n positive it keeps the last n elements. -/
def sliceLast (l : List MemoryEntry) (n : Nat) : List MemoryEntry :=
  if n = 0 then l else l.drop (l.length - n)

/-- memory.js write: truncate to the last maxEntries elements before
persisting (storage errors are swallowed; the persisted sequence is the
state we model). -/
def write (maxEntries : Nat) (entries : List MemoryEntry) : List MemoryEntry :=
  sliceLast entries maxEntries

/-- Input of memory.js remember. -/
structure RememberInput where
  user : String
  assistant : String
  timestamp : String
deriving DecidableEq, Repr

/-- The entry that a remember call appends: both fields sanitised. -/
def cleanEntry (inp : RememberInput) : MemoryEntry :=
  ⟨sanitise inp.user, sanitise inp.assistant, inp.timestamp⟩

/-- memory.js remember: no-op when both sanitised fields are empty,
otherwise append the sanitised entry and truncate to the last
maxEntries. -/
def remember (maxEntries : Nat) (st : List MemoryEntry)
    (inp : RememberInput) : List MemoryEntry :=
  let cleanUser := sanitise inp.user
  let cleanAssistant := sanitise inp.assistant
  if cleanUser = "" ∧ cleanAssistant = "" then st
  else write maxEntries (st ++ [⟨cleanUser, cleanAssistant, inp.timestamp⟩])

/-- memory.js exportAll: returns the full persisted sequence. -/
def exportAll (st : List MemoryEntry) : List MemoryEntry := st

/-- A sequence of remember calls, oldest first. -/
def rememberAll (maxEntries : Nat) (st : List MemoryEntry)
    (inputs : List RememberInput) : List MemoryEntry :=
  inputs.foldl (remember maxEntries) st

theorem sliceLast_eq_reverse_take (l : List MemoryEntry) {n : Nat} (hn : n ≠ 0) :
    sliceLast l n = (l.reverse.take n).reverse := by
  simp [sliceLast, hn, List.take_reverse, List.reverse_reverse]

theorem sliceLast_length_le (l : List MemoryEntry) {n : Nat} (hn : n ≠ 0) :
    (sliceLast l n).length ≤ n := by
  rw [sliceLast_eq_reverse_take l hn]
  simp [List.length_take]

theorem sliceLast_append_sliceLast (l m : List MemoryEntry) {n : Nat} (hn : n ≠ 0) :
    sliceLast (sliceLast l n ++ m) n = sliceLast (l ++ m) n := by
  rw [sliceLast_eq_reverse_take l hn, sliceLast_eq_reverse_take _ hn,
    sliceLast_eq_reverse_take _ hn]
  congr 1
  rw [List.reverse_append, List.reverse_append, List.reverse_reverse]
  rw [List.take_append_eq_append_take, List.take_append_eq_append_take]
  rw [List.take_take]
  rw [Nat.min_eq_left (Nat.sub_le n _)]

/-- A remember input that is not blank: at least one side survives
sanitisation. -/
def nonBlank (inp : RememberInput) : Prop :=
  ¬ (sanitise inp.user = "" ∧ sanitise inp.assistant = "")

instance (inp : RememberInput) : Decidable (nonBlank inp) := by
  unfold nonBlank; infer_instance

theorem remember_nonBlank (maxEntries : Nat) (st : List MemoryEntry)
    (inp : RememberInput) (h : nonBlank inp) :
    remember maxEntries st inp = write maxEntries (st ++ [cleanEntry inp]) := by
  unfold remember nonBlank at *
  simp only [h, if_false, cleanEntry]

theorem rememberAll_sliceLast {n : Nat} (hn : n ≠ 0)
    (inputs : List RememberInput) (l : List MemoryEntry)
    (hnb : ∀ inp ∈ inputs, nonBlank inp) :
    rememberAll n (sliceLast l n) inputs
      = sliceLast (l ++ inputs.map cleanEntry) n := by
  induction inputs generalizing l with
  | nil => simp [rememberAll]
  | cons inp rest ih =>
    have hinp : nonBlank inp := hnb inp (List.mem_cons_self _ _)
    have hrest : ∀ i ∈ rest, nonBlank i := fun i hi => hnb i (List.mem_cons_of_mem _ hi)
    show rememberAll n (remember n (sliceLast l n) inp) rest = _
    rw [remember_nonBlank _ _ _ hinp]
    unfold write
    rw [sliceLast_append_sliceLast _ _ hn, ih _ hrest]
    congr 1
    simp

/-- C6 counterexample: the claim quantifies over every maxEntries value N,
but with maxEntries = 0 the JavaScript entries.slice(-maxEntries) evaluates
slice(0) and keeps the whole array, so a single non-blank remember call
leaves one entry in exportAll, more than N = 0. -/
theorem c6_counterexample :
    ¬ ((exportAll (rememberAll 0 [] [⟨"hi", "", "t1"⟩])).length ≤ 0) := by
  decide

/-- C6 (amended): for every memory vault constructed with maxEntries = N
for N at least 1 and every sequence of non-blank remember calls, exportAll
returns at most N entries, and they are exactly the most recent N
remembered (sanitised) entries in order of insertion, oldest dropped
first. -/
theorem c6_memory_cap_amended {n : Nat} (hn : 1 ≤ n) (inputs : List RememberInput)
    (hnb : ∀ inp ∈ inputs, nonBlank inp) :
    exportAll (rememberAll n [] inputs) = sliceLast (inputs.map cleanEntry) n
    ∧ (exportAll (rememberAll n [] inputs)).length ≤ n := by
  have hn0 : n ≠ 0 := by omega
  have h1 := rememberAll_sliceLast hn0 inputs [] hnb
  have h2 : sliceLast ([] : List MemoryEntry) n = [] := by simp [sliceLast, hn0]
  rw [h2, List.nil_append] at h1
  refine ⟨h1, ?_⟩
  show (rememberAll n [] inputs).length ≤ n
  rw [h1]
  exact sliceLast_length_le _ hn0

/-- C6 witness: with maxEntries = 2, three sequential non-blank remember
calls leave exactly the last two entries. -/
theorem c6_memory_cap_witness :
    (1 : Nat) ≤ 2
    ∧ exportAll (rememberAll 2 []
        [⟨"Первый вопрос", "Первый ответ", "t1"⟩,
         ⟨"Второй вопрос", "Второй ответ", "t2"⟩,
         ⟨"Третий вопрос", "Третий ответ", "t3"⟩])
      = [⟨"Второй вопрос", "Второй ответ", "t2"⟩,
         ⟨"Третий вопрос", "Третий ответ", "t3"⟩] := by
  refine ⟨by decide, ?_⟩
  rw [(c6_memory_cap_amended (by decide)
    [⟨"Первый вопрос", "Первый ответ", "t1"⟩,
     ⟨"Второй вопрос", "Второй ответ", "t2"⟩,
     ⟨"Третий вопрос", "Третий ответ", "t3"⟩] (by decide)).1]
  decide

/-- C7: for every stored state and every input whose user and assistant
fields are both empty after whitespace normalisation, remember is a no-op:
the persisted entry sequence and the result of a subsequent exportAll are
unchanged. -/
theorem c7_remember_blank_noop (maxEntries : Nat) (st : List MemoryEntry)
    (inp : RememberInput) (hu : sanitise inp.user = "")
    (ha : sanitise inp.assistant = "") :
    remember maxEntries st inp = st
    ∧ exportAll (remember maxEntries st inp) = exportAll st := by
  have h : remember maxEntries st inp = st := by
    unfold remember
    simp [hu, ha]
  exact ⟨h, by simpa [exportAll] using h⟩

/-- C7 witness: a remember call whose fields are whitespace only leaves a
concrete stored sequence untouched. -/
theorem c7_remember_blank_witness :
    sanitise "   " = "" ∧ sanitise " \n\t " = ""
    ∧ remember 40 [⟨"a", "b", "t"⟩] ⟨"   ", " \n\t ", "x"⟩ = [⟨"a", "b", "t"⟩] :=
  ⟨by decide, by decide,
    (c7_remember_blank_noop 40 [⟨"a", "b", "t"⟩] ⟨"   ", " \n\t ", "x"⟩
      (by decide) (by decide)).1⟩

end Milana.Memory

namespace Milana.Knowledge

/-- knowledge.js sanitiseQuery: trim then cap at 160 characters. -/
def sanitiseQuery (query : String) : String :=
  String.mk ((jsTrim query).data.take 160)

/-- A connector with its resolved enabled flag (knowledge.js getConnectors
annotates each connector with the stored override, else its default).  The
fetch capability absorbs the captured fetchImpl and limit; it resolves
with content or rejects with an error message. -/
structure Connector where
  id : String
  label : String
  enabled : Bool
  fetch : String → Except String String

/-- One element of GatherResult.entries.  JavaScript builds either
an id/label/content object (fulfilled) or an id/label/error object
(rejected); an absent field is the JavaScript undefined, modelled as
none. -/
structure GatherEntry where
  id : String
  label : String
  content : Option String := none
  error : Option String := none
deriving DecidableEq, Repr

/-- JavaScript truthiness of a possibly absent string field. -/
def truthyOpt : Option String → Bool
  | none => false
  | some s => s ≠ ""

/-- JavaScript string interpolation of a possibly absent field: the
undefined value prints as the text undefined. -/
def jsShowOpt : Option String → String
  | none => "undefined"
  | some s => s

/-- Result of knowledge.js gather. -/
structure GatherResult where
  entries : List GatherEntry
  combinedText : String
  errors : List String
deriving DecidableEq, Repr

/-- The entry produced for one connector by the settle-all collection. -/
def entryOf (topic : String) (c : Connector) : GatherEntry :=
  match c.fetch topic with
  | Except.ok content => { id := c.id, label := c.label, content := some content }
  | Except.error e => { id := c.id, label := c.label, error := some e }

/-- The combinedText assembled from the successful entries: label and
content joined, blocks joined by blank lines. -/
def combinedOf (entries : List GatherEntry) : String :=
  String.intercalate "\n\n"
    ((entries.filter (fun e => ! truthyOpt e.error)).map
      (fun e => e.label ++ ": " ++ jsShowOpt e.content))

/-- The errors list assembled from the failed entries. -/
def errorsOf (entries : List GatherEntry) : List String :=
  (entries.filter (fun e => truthyOpt e.error)).map
    (fun e => e.label ++ ": " ++ jsShowOpt e.error)

/-- knowledge.js gather: sanitise the query, keep the enabled connectors,
short-circuit on an empty topic or no active connector, otherwise settle
every connector fetch independently, split the entries on the truthiness
of their error field, join the successful ones for combinedText and
format the failed ones into errors.  The function is total: no rejection
of a connector fetch escapes it. -/
def gather (connectors : List Connector) (query : String) : GatherResult :=
  let topic := sanitiseQuery query
  let active := connectors.filter (fun c => c.enabled)
  if active.isEmpty ∨ topic = "" then
    { entries := [], combinedText := "",
      errors := if topic ≠ "" then [] else ["Не задан запрос для агрегации данных."] }
  else
    { entries := active.map (entryOf topic),
      combinedText := combinedOf (active.map (entryOf topic)),
      errors := errorsOf (active.map (entryOf topic)) }

theorem errorsOf_map (topic : String) (l : List Connector)
    (hmsg : ∀ c ∈ l, ∀ e, c.fetch topic = Except.error e → e ≠ "") :
    errorsOf (l.map (entryOf topic))
      = l.filterMap (fun c =>
          match c.fetch topic with
          | Except.error e => some (c.label ++ ": " ++ e)
          | Except.ok _ => none) := by
  induction l with
  | nil => rfl
  | cons c r ih =>
    have hc : ∀ e, c.fetch topic = Except.error e → e ≠ "" :=
      fun e he => hmsg c (List.mem_cons_self _ _) e he
    have hr : ∀ d ∈ r, ∀ e, d.fetch topic = Except.error e → e ≠ "" :=
      fun d hd => hmsg d (List.mem_cons_of_mem _ hd)
    unfold errorsOf at ih ⊢
    rw [List.map_cons, List.filterMap_cons]
    cases hfetch : c.fetch topic with
    | ok v =>
      have hent : entryOf topic c
          = { id := c.id, label := c.label, content := some v } := by
        unfold entryOf; rw [hfetch]
      rw [hent, List.filter_cons_of_neg (by simp [truthyOpt]), ih hr]
    | error e =>
      have he : e ≠ "" := hc e hfetch
      have hent : entryOf topic c
          = { id := c.id, label := c.label, error := some e } := by
        unfold entryOf; rw [hfetch]
      rw [hent, List.filter_cons_of_pos (by simp [truthyOpt, he]),
        List.map_cons, ih hr]
      simp only [hfetch, jsShowOpt]

theorem combinedOf_map (topic : String) (l : List Connector)
    (hmsg : ∀ c ∈ l, ∀ e, c.fetch topic = Except.error e → e ≠ "") :
    (l.map (entryOf topic)).filter (fun e => ! truthyOpt e.error)
      = l.filterMap (fun c =>
          match c.fetch topic with
          | Except.ok v =>
            some { id := c.id, label := c.label, content := some v }
          | Except.error _ => none) := by
  induction l with
  | nil => rfl
  | cons c r ih =>
    have hc : ∀ e, c.fetch topic = Except.error e → e ≠ "" :=
      fun e he => hmsg c (List.mem_cons_self _ _) e he
    have hr : ∀ d ∈ r, ∀ e, d.fetch topic = Except.error e → e ≠ "" :=
      fun d hd => hmsg d (List.mem_cons_of_mem _ hd)
    rw [List.map_cons, List.filterMap_cons]
    cases hfetch : c.fetch topic with
    | ok v =>
      have hent : entryOf topic c
          = { id := c.id, label := c.label, content := some v } := by
        unfold entryOf; rw [hfetch]
      rw [hent, List.filter_cons_of_pos (by simp [truthyOpt]), ih hr]
    | error e =>
      have he : e ≠ "" := hc e hfetch
      have hent : entryOf topic c
          = { id := c.id, label := c.label, error := some e } := by
        unfold entryOf; rw [hfetch]
      rw [hent, List.filter_cons_of_neg (by simp [truthyOpt, he]), ih hr]

/-- An active connector whose fetch rejects with an empty message. -/
def emptyErrConnector : Connector :=
  { id := "wikipedia", label := "Википедия", enabled := true,
    fetch := fun _ => Except.error "" }

/-- An active connector whose fetch succeeds. -/
def okNewsConnector : Connector :=
  { id := "hackernews", label := "Hacker News", enabled := true,
    fetch := fun _ => Except.ok "новости" }

/-- C2 counterexample: with a non-empty topic and two active connectors,
one rejecting (with an empty message, as a rejection may carry) and one
succeeding, gather treats the rejected entry as successful, because the
JavaScript split tests the truthiness of the error field and the empty
string is falsy: errors stays empty instead of holding one
label-and-message string for the failing connector, and combinedText
renders the failed entry with the undefined content. -/
theorem c2_counterexample :
    emptyErrConnector.fetch (sanitiseQuery "данные") = Except.error ""
    ∧ okNewsConnector.fetch (sanitiseQuery "данные") = Except.ok "новости"
    ∧ emptyErrConnector.enabled = true
    ∧ okNewsConnector.enabled = true
    ∧ sanitiseQuery "данные" ≠ ""
    ∧ (gather [emptyErrConnector, okNewsConnector] "данные").errors = []
    ∧ (gather [emptyErrConnector, okNewsConnector] "данные").combinedText
        = "Википедия: undefined\n\nHacker News: новости" :=
  ⟨rfl, rfl, rfl, rfl, by decide, by rfl, by rfl⟩

/-- C2 (amended): for every non-empty topic and every set of active
connectors in which some fetches reject with non-empty messages and
others succeed, gather resolves: every connector outcome is captured
independently as one entry in order, each failing connector contributes
its label-and-message string to errors, errors holds exactly the failing
connectors in order, and combinedText is built only from the successful
connectors. -/
theorem c2_gather_settle_all (connectors : List Connector) (query : String)
    (htopic : sanitiseQuery query ≠ "")
    (hactive : connectors.filter (fun c => c.enabled) ≠ [])
    (hmsg : ∀ c ∈ connectors.filter (fun c => c.enabled), ∀ e,
      c.fetch (sanitiseQuery query) = Except.error e → e ≠ "")
    (_hfail : ∃ c ∈ connectors.filter (fun c => c.enabled), ∃ e,
      c.fetch (sanitiseQuery query) = Except.error e)
    (_hsucc : ∃ c ∈ connectors.filter (fun c => c.enabled), ∃ v,
      c.fetch (sanitiseQuery query) = Except.ok v) :
    (gather connectors query).entries
        = (connectors.filter (fun c => c.enabled)).map
            (entryOf (sanitiseQuery query))
    ∧ (∀ c ∈ connectors.filter (fun c => c.enabled), ∀ e,
        c.fetch (sanitiseQuery query) = Except.error e →
          (c.label ++ ": " ++ e) ∈ (gather connectors query).errors)
    ∧ (gather connectors query).errors
        = (connectors.filter (fun c => c.enabled)).filterMap (fun c =>
            match c.fetch (sanitiseQuery query) with
            | Except.error e => some (c.label ++ ": " ++ e)
            | Except.ok _ => none)
    ∧ (gather connectors query).combinedText
        = String.intercalate "\n\n"
            (((connectors.filter (fun c => c.enabled)).filterMap (fun c =>
              match c.fetch (sanitiseQuery query) with
              | Except.ok v =>
                some { id := c.id, label := c.label,
                       content := some v : GatherEntry }
              | Except.error _ => none)).map
              (fun e => e.label ++ ": " ++ jsShowOpt e.content)) := by
  have hcond : ¬ ((connectors.filter (fun c => c.enabled)).isEmpty
      ∨ sanitiseQuery query = "") := by
    rw [List.isEmpty_iff]
    push_neg
    exact ⟨hactive, htopic⟩
  have hg : gather connectors query
      = { entries := (connectors.filter (fun c => c.enabled)).map
            (entryOf (sanitiseQuery query)),
          combinedText := combinedOf
            ((connectors.filter (fun c => c.enabled)).map
              (entryOf (sanitiseQuery query))),
          errors := errorsOf
            ((connectors.filter (fun c => c.enabled)).map
              (entryOf (sanitiseQuery query))) } := by
    unfold gather
    rw [if_neg hcond]
  refine ⟨by rw [hg], ?_, ?_, ?_⟩
  · intro c hc e he
    rw [hg]
    show _ ∈ errorsOf _
    rw [errorsOf_map _ _ hmsg]
    rw [List.mem_filterMap]
    exact ⟨c, hc, by rw [he]⟩
  · rw [hg]
    exact errorsOf_map _ _ hmsg
  · rw [hg]
    show combinedOf _ = _
    unfold combinedOf
    rw [combinedOf_map _ _ hmsg]

/-- A concrete failing connector with a descriptive message for the C2
witness. -/
def wikiDownConnector : Connector :=
  { id := "wikipedia", label := "Википедия", enabled := true,
    fetch := fun _ => Except.error "недоступна" }

/-- C2 witness: with one failing and one succeeding active connector the
failing one contributes its formatted message to errors. -/
theorem c2_gather_settle_all_witness :
    sanitiseQuery "данные" ≠ ""
    ∧ ("Википедия" ++ ": " ++ "недоступна")
        ∈ (gather [wikiDownConnector, okNewsConnector] "данные").errors :=
  ⟨by decide,
    (c2_gather_settle_all [wikiDownConnector, okNewsConnector] "данные"
      (by decide)
      (by intro h; cases h)
      (by
        intro c hc e he
        rcases List.mem_cons.mp hc with h | h
        · rw [h] at he
          cases he
          decide
        · rcases List.mem_cons.mp h with h2 | h2
          · rw [h2] at he
            cases he
          · cases h2)
      ⟨wikiDownConnector, List.mem_cons_self _ _, "недоступна", rfl⟩
      ⟨okNewsConnector, List.mem_cons_of_mem _ (List.mem_cons_self _ _),
        "новости", rfl⟩).2.1
      wikiDownConnector (List.mem_cons_self _ _) "недоступна" rfl⟩

end Milana.Knowledge

namespace Milana

/-- One chat message (role and content). -/
structure Msg where
  role : String
  content : String
deriving DecidableEq, Repr

/-- The value the injectable clock produces: a Date observed through the
two renderings respond uses, toISOString and the Russian locale
string. -/
structure JsDate where
  iso : String
  human : String
deriving DecidableEq, Repr

/-- A string t contains s when s occurs contiguously somewhere in t. -/
def Contains (t s : String) : Prop :=
  ∃ pre post, t.data = pre ++ s.data ++ post

theorem data_append (a b : String) : (a ++ b).data = a.data ++ b.data := by
  cases a; cases b; rfl

theorem contains_of_append (a s b : String) : Contains (a ++ s ++ b) s :=
  ⟨a.data, b.data, by rw [data_append, data_append]⟩

theorem contains_empty (t : String) : Contains t "" :=
  ⟨t.data, [], by simp [String.data]⟩

theorem Contains.count_le (t s : String) (c : Char) (h : Contains t s) :
    s.data.count c ≤ t.data.count c := by
  obtain ⟨pre, post, hd⟩ := h
  rw [hd, List.count_append, List.count_append]
  omega

end Milana

namespace Milana.FreeTier

/-- free-tier.js normaliseTopic: lower-case, collapse whitespace runs to
one space, trim. -/
def normaliseTopic (text : String) : String :=
  jsTrim (wsReplace (String.mk (text.data.map Char.toLower)))

/-- free-tier.js limitText: an empty text stays empty; a text longer than
maxLength is cut to its first maxLength characters with an appended
ellipsis character; otherwise the text is returned whole. -/
def limitText (text : String) (maxLength : Nat) : String :=
  if text = "" then ""
  else if text.length > maxLength then String.mk (text.data.take maxLength) ++ "…"
  else text

/-- The engine's single-slot aggregation cache. -/
structure Aggregation where
  topic : String
  originalTopic : String
  combinedText : String
  entries : List Knowledge.GatherEntry
  errors : List String
  timestamp : Int
deriving DecidableEq, Repr

/-- The initial cache of a freshly constructed engine. -/
def initialAggregation : Aggregation :=
  { topic := "", originalTopic := "", combinedText := "",
    entries := [], errors := [], timestamp := 0 }

/-- What the knowledge hub's gather resolves to, as the engine reads it
(combinedText, entries and errors, with the falsy fallbacks already
harmless for strings and arrays). -/
structure GatherPayload where
  combinedText : String
  entries : List Knowledge.GatherEntry
  errors : List String
deriving DecidableEq, Repr

/-- The engine's view of the hub: gather takes the topic text and the
limit and either resolves with a payload or rejects with the message of
the thrown error. -/
def GatherFn : Type :=
  String → Nat → Except String GatherPayload

/-- The engine's view of the vault: recall takes the limit and maxLength
options and returns the summary string (the claims assume a recall that
does not throw, which a total function models). -/
def RecallFn : Type :=
  Nat → Nat → String

/-- The cache test of free-tier.js ensureAggregation: a non-empty
normalised topic that matches the cached topic, with the ambient
Date.now within cacheTtl of the cache timestamp. -/
def isCachedB (agg : Aggregation) (topicText : String) (dateNow cacheTtl : Int) :
    Bool :=
  (normaliseTopic topicText ≠ "" : Bool)
    && (agg.topic == normaliseTopic topicText)
    && (dateNow - agg.timestamp < cacheTtl : Bool)

/-- The aggregation the catch branch of ensureAggregation records: the
caught message as the sole error, an empty combinedText and no
entries. -/
def errorAggregation (topicText msg : String) (dateNow : Int) : Aggregation :=
  { topic := normaliseTopic topicText, originalTopic := topicText,
    combinedText := "", entries := [], errors := [msg], timestamp := dateNow }

/-- free-tier.js ensureAggregation: reuse the cache when the test passes;
an empty normalised topic produces the no-request aggregation; otherwise
call gather with limit 4, recording its payload, or on rejection the
caught message as the sole error with empty combinedText.  The returned
flag records whether gather was invoked. -/
def ensureAggregation (gatherFn : GatherFn) (agg : Aggregation)
    (topicText : String) (dateNow cacheTtl : Int) : Aggregation × Bool :=
  if isCachedB agg topicText dateNow cacheTtl then (agg, false)
  else if normaliseTopic topicText = "" then
    ({ topic := "", originalTopic := "", combinedText := "", entries := [],
       errors := ["Пока нет запроса для бесплатного движка."],
       timestamp := dateNow }, false)
  else
    match gatherFn topicText 4 with
    | Except.ok r =>
      ({ topic := normaliseTopic topicText, originalTopic := topicText,
         combinedText := r.combinedText, entries := r.entries,
         errors := r.errors, timestamp := dateNow }, true)
    | Except.error msg => (errorAggregation topicText msg dateNow, true)

/-- free-tier.js buildKnowledgeBlock: prefer the combined text as a
dossier cut at 900 characters, else surface the first aggregation error,
else the generic idle message. -/
def buildKnowledgeBlock (data : Aggregation) : String :=
  if data.combinedText ≠ "" then
    "📚 Интернет-досье:\n" ++ limitText data.combinedText 900
  else if data.errors ≠ [] then
    "🌐 Источники временно недоступны: " ++ data.errors.headD ""
  else
    "🌐 Источники пока не задействованы — при необходимости обновите данные."

/-- free-tier.js buildPlan: the four steps, branching on topic, knowledge
and memory presence, joined by newlines under the plan header. -/
def buildPlan (topic : String) (knowledge : Aggregation)
    (memorySummary : String) : String :=
  let step1 :=
    if topic ≠ "" then "1. Формулирую задачу: " ++ topic ++ "."
    else "1. Жду формулировку задачи, чтобы сфокусировать стратегию."
  let step2 :=
    if knowledge.combinedText ≠ "" then
      "2. Извлекаю ключевые факты из подключённых источников."
    else if knowledge.errors ≠ [] then
      "2. Интернет-источники сигнализируют о сбое, но стратегию всё равно построю."
    else "2. Готова подключить интернет-источники по первому требованию."
  let step3 :=
    if memorySummary ≠ "" then
      "3. Учитываю сохранённые инсайты и усиливаю ответ персональными нюансами."
    else "3. Создаю свежую стратегию и начну фиксировать важные детали для памяти."
  let step4 :=
    "4. Сформулируйте следующее действие или уточнение — продолжу без задержек."
  "🚀 План действий:\n" ++ step1 ++ "\n" ++ step2 ++ "\n" ++ step3 ++ "\n" ++ step4

/-- The header block of respond, rendered from the injected clock. -/
def headerOf (now : JsDate) : String :=
  "⚡ Режим Milana Super GPTb (free tier). Сейчас " ++ now.human
    ++ " (ISO: " ++ now.iso ++ ")."

/-- The topic echo block of respond. -/
def introOf (topic : String) : String :=
  if topic ≠ "" then "📝 Запрос: " ++ topic
  else "📝 Жду ваш первый вопрос или инструкцию, чтобы запустить сверхрежим."

/-- The memory block of respond. -/
def memoryBlockOf (memorySummary : String) : String :=
  if memorySummary ≠ "" then
    "🧠 Из памяти Milana: " ++ limitText memorySummary 420
  else "🧠 Пока нет сохранённых инсайтов — мы начинаем с чистого листа."

/-- The constant closing block of respond. -/
def footerText : String :=
  "Продолжайте — бесплатный режим уже отвечает без ключа. Для доступа к облачным моделям добавьте ключ в панели выше."

/-- The most recent user message's trimmed content (respond scans the
message list from the end for the role user). -/
def extractTopic (messages : List Msg) : String :=
  match messages.reverse.find? (fun m => m.role == "user") with
  | some m => jsTrim m.content
  | none => ""

/-- The argument respond hands to ensureAggregation: the current topic,
or the cached original topic when the current one is empty. -/
def topicArgOf (agg : Aggregation) (messages : List Msg) : String :=
  if extractTopic messages = "" then agg.originalTopic else extractTopic messages

/-- free-tier.js respond: extract the topic, refresh or reuse the
aggregation, recall the memory summary with limit 6 and maxLength 900,
and join the five blocks and the footer with blank lines.  The result is
the response text, the cache left behind, and whether gather was
invoked; the function is total, so respond always yields a string. -/
def respond (gatherFn : GatherFn) (recallFn : RecallFn) (agg : Aggregation)
    (messages : List Msg) (clockNow : JsDate) (dateNow cacheTtl : Int) :
    String × Aggregation × Bool :=
  let topic := extractTopic messages
  let result := ensureAggregation gatherFn agg (topicArgOf agg messages)
    dateNow cacheTtl
  let memorySummary := recallFn 6 900
  (headerOf clockNow ++ "\n\n" ++ introOf topic ++ "\n\n"
      ++ buildKnowledgeBlock result.1 ++ "\n\n" ++ memoryBlockOf memorySummary
      ++ "\n\n" ++ buildPlan topic result.1 memorySummary ++ "\n\n" ++ footerText,
    result.1, result.2)

theorem strLength_append (a b : String) : (a ++ b).length = a.length + b.length := by
  cases a; cases b
  show List.length (_ ++ _) = _
  rw [List.length_append]
  rfl

theorem ensureAggregation_cached (gatherFn : GatherFn) (agg : Aggregation)
    (topicText : String) (dateNow cacheTtl : Int)
    (h : isCachedB agg topicText dateNow cacheTtl = true) :
    ensureAggregation gatherFn agg topicText dateNow cacheTtl = (agg, false) := by
  unfold ensureAggregation
  rw [h]
  simp

theorem ensureAggregation_error (gatherFn : GatherFn) (agg : Aggregation)
    (topicText : String) (dateNow cacheTtl : Int) (msg : String)
    (hnorm : normaliseTopic topicText ≠ "")
    (hcache : isCachedB agg topicText dateNow cacheTtl = false)
    (hg : gatherFn topicText 4 = Except.error msg) :
    ensureAggregation gatherFn agg topicText dateNow cacheTtl
      = (errorAggregation topicText msg dateNow, true) := by
  unfold ensureAggregation
  rw [hcache]
  simp only [Bool.false_eq_true, if_false]
  rw [if_neg hnorm, hg]

theorem limitText_of_le (s : String) (h : s.length ≤ 900) :
    limitText s 900 = s := by
  unfold limitText
  by_cases hs : s = ""
  · rw [if_pos hs, hs]
  · rw [if_neg hs, if_neg (by omega)]

/-- C1: for every messages list (the vault's recall modelled as a total
function), respond yields a string and never throws: when the topic is
non-empty, the cache misses and gather rejects, the caught message
becomes the sole element of the cached aggregation's errors with empty
combinedText, and respond still returns the full templated reply
rendering that error as a degraded knowledge block. -/
theorem c1_respond_never_throws (gatherFn : GatherFn) (recallFn : RecallFn)
    (agg : Aggregation) (messages : List Msg) (clockNow : JsDate)
    (dateNow cacheTtl : Int) (msg : String)
    (hnorm : normaliseTopic (topicArgOf agg messages) ≠ "")
    (hcache : isCachedB agg (topicArgOf agg messages) dateNow cacheTtl = false)
    (hg : gatherFn (topicArgOf agg messages) 4 = Except.error msg) :
    (errorAggregation (topicArgOf agg messages) msg dateNow).errors = [msg]
    ∧ (errorAggregation (topicArgOf agg messages) msg dateNow).combinedText = ""
    ∧ respond gatherFn recallFn agg messages clockNow dateNow cacheTtl
      = (headerOf clockNow ++ "\n\n" ++ introOf (extractTopic messages) ++ "\n\n"
          ++ ("🌐 Источники временно недоступны: " ++ msg) ++ "\n\n"
          ++ memoryBlockOf (recallFn 6 900) ++ "\n\n"
          ++ buildPlan (extractTopic messages)
              (errorAggregation (topicArgOf agg messages) msg dateNow)
              (recallFn 6 900)
          ++ "\n\n" ++ footerText,
        errorAggregation (topicArgOf agg messages) msg dateNow, true) := by
  have hens := ensureAggregation_error gatherFn agg (topicArgOf agg messages)
    dateNow cacheTtl msg hnorm hcache hg
  have hbkb : buildKnowledgeBlock (errorAggregation (topicArgOf agg messages) msg dateNow)
      = "🌐 Источники временно недоступны: " ++ msg := by
    unfold buildKnowledgeBlock errorAggregation
    simp
  refine ⟨rfl, rfl, ?_⟩
  unfold respond
  simp only [hens, hbkb]

/-- C1 witness: a fresh engine, a user message and a gather that rejects
with the message boom: the recorded aggregation holds boom as its sole
error. -/
theorem c1_respond_never_throws_witness :
    normaliseTopic (topicArgOf initialAggregation [⟨"user", "hello"⟩]) ≠ ""
    ∧ (respond (fun _ _ => Except.error "boom") (fun _ _ => "")
        initialAggregation [⟨"user", "hello"⟩] ⟨"T", "H"⟩ 0 60000).2.1.errors
      = ["boom"] := by
  refine ⟨by decide, ?_⟩
  rw [(c1_respond_never_throws (fun _ _ => Except.error "boom") (fun _ _ => "")
    initialAggregation [⟨"user", "hello"⟩] ⟨"T", "H"⟩ 0 60000 "boom"
    (by decide) (by decide) rfl).2.2]
  rfl

/-- The string of 901 exclamation marks used to exercise the 900
character dossier cut. -/
def bang901 : String := String.mk (List.replicate 901 '!')

/-- A cached aggregation for topic t whose combined text is 901
characters long. -/
def aggBang : Aggregation :=
  { topic := "t", originalTopic := "t", combinedText := bang901,
    entries := [], errors := [], timestamp := 0 }

/-- A hub stub whose gather resolves with an empty payload. -/
def gIdle : GatherFn := fun _ _ => Except.ok ⟨"", [], []⟩

/-- A vault stub whose recall returns the empty summary. -/
def rEmpty : RecallFn := fun _ _ => ""

set_option maxRecDepth 40000 in
/-- C3 counterexample: with a cached aggregation for the same normalised
topic, inside the TTL, whose combinedText is 901 characters long, gather
is indeed not invoked, but the response text does not contain the cached
combinedText: the knowledge block holds only its first 900 characters
followed by an ellipsis. -/
theorem c3_counterexample :
    normaliseTopic (extractTopic [⟨"user", "t"⟩]) ≠ ""
    ∧ aggBang.topic = normaliseTopic (extractTopic [⟨"user", "t"⟩])
    ∧ ((0 : Int) - aggBang.timestamp < 60000)
    ∧ (respond gIdle rEmpty aggBang [⟨"user", "t"⟩] ⟨"", ""⟩ 0 60000).2.2 = false
    ∧ ¬ Contains (respond gIdle rEmpty aggBang [⟨"user", "t"⟩] ⟨"", ""⟩ 0 60000).1
        aggBang.combinedText := by
  refine ⟨by decide, by decide, by decide, by decide, ?_⟩
  intro h
  have hle := Contains.count_le _ _ '!' h
  have h901 : aggBang.combinedText.data.count '!' = 901 := by decide
  have h900 : (respond gIdle rEmpty aggBang [⟨"user", "t"⟩]
      ⟨"", ""⟩ 0 60000).1.data.count '!' = 900 := by decide
  omega

/-- C3 (amended): if respond is called with a latest user message whose
normalised topic is non-empty and equals the cached aggregation's topic,
and the ambient time is within cacheTtl of the cache timestamp, then
gather is not invoked, the cache is kept as is, and the response text
contains the cached combinedText truncated to 900 characters — in
particular the cached combinedText itself whenever it is at most 900
characters long. -/
theorem c3_cached_respond (gatherFn : GatherFn) (recallFn : RecallFn)
    (agg : Aggregation) (messages : List Msg) (clockNow : JsDate)
    (dateNow cacheTtl : Int)
    (hne : normaliseTopic (extractTopic messages) ≠ "")
    (heq : agg.topic = normaliseTopic (extractTopic messages))
    (ht : dateNow - agg.timestamp < cacheTtl) :
    (respond gatherFn recallFn agg messages clockNow dateNow cacheTtl).2.2 = false
    ∧ (respond gatherFn recallFn agg messages clockNow dateNow cacheTtl).2.1 = agg
    ∧ Contains (respond gatherFn recallFn agg messages clockNow dateNow cacheTtl).1
        (limitText agg.combinedText 900)
    ∧ (agg.combinedText.length ≤ 900 →
        Contains (respond gatherFn recallFn agg messages clockNow dateNow cacheTtl).1
          agg.combinedText) := by
  have htopic : extractTopic messages ≠ "" := by
    intro h
    rw [h] at hne
    exact hne rfl
  have harg : topicArgOf agg messages = extractTopic messages := by
    unfold topicArgOf
    rw [if_neg htopic]
  have hcache : isCachedB agg (topicArgOf agg messages) dateNow cacheTtl = true := by
    rw [harg]
    unfold isCachedB
    simp [hne, heq, ht]
  have hens := ensureAggregation_cached gatherFn agg (topicArgOf agg messages)
    dateNow cacheTtl hcache
  have htext : (respond gatherFn recallFn agg messages clockNow dateNow cacheTtl).1
      = headerOf clockNow ++ "\n\n" ++ introOf (extractTopic messages) ++ "\n\n"
        ++ buildKnowledgeBlock agg ++ "\n\n" ++ memoryBlockOf (recallFn 6 900)
        ++ "\n\n" ++ buildPlan (extractTopic messages) agg (recallFn 6 900)
        ++ "\n\n" ++ footerText := by
    unfold respond
    rw [hens]
  have hcont : Contains
      (respond gatherFn recallFn agg messages clockNow dateNow cacheTtl).1
      (limitText agg.combinedText 900) := by
    rw [htext]
    by_cases hc : agg.combinedText = ""
    · rw [hc]
      rw [show limitText "" 900 = "" from rfl]
      exact contains_empty _
    · have hbkb : buildKnowledgeBlock agg
          = "📚 Интернет-досье:\n" ++ limitText agg.combinedText 900 := by
        unfold buildKnowledgeBlock
        rw [if_pos hc]
      rw [hbkb]
      refine ⟨(headerOf clockNow ++ "\n\n" ++ introOf (extractTopic messages)
          ++ "\n\n" ++ "📚 Интернет-досье:\n").data,
        ("\n\n" ++ memoryBlockOf (recallFn 6 900) ++ "\n\n"
          ++ buildPlan (extractTopic messages) agg (recallFn 6 900)
          ++ "\n\n" ++ footerText).data, ?_⟩
      simp [data_append, List.append_assoc]
  refine ⟨?_, ?_, hcont, ?_⟩
  · unfold respond
    rw [hens]
  · unfold respond
    rw [hens]
  · intro hlen
    rw [← limitText_of_le agg.combinedText hlen]
    exact hcont

/-- C3 witness: a short cached dossier for the same topic is reused and
appears verbatim in the response. -/
theorem c3_cached_respond_witness :
    ((0 : Int) - 0 < 60000)
    ∧ (respond gIdle rEmpty ⟨"hi", "hi", "facts", [], [], 0⟩
        [⟨"user", "hi"⟩] ⟨"", ""⟩ 0 60000).2.2 = false
    ∧ Contains (respond gIdle rEmpty ⟨"hi", "hi", "facts", [], [], 0⟩
        [⟨"user", "hi"⟩] ⟨"", ""⟩ 0 60000).1 "facts" :=
  ⟨by decide,
    (c3_cached_respond gIdle rEmpty ⟨"hi", "hi", "facts", [], [], 0⟩
      [⟨"user", "hi"⟩] ⟨"", ""⟩ 0 60000 (by decide) (by decide) (by decide)).1,
    (c3_cached_respond gIdle rEmpty ⟨"hi", "hi", "facts", [], [], 0⟩
      [⟨"user", "hi"⟩] ⟨"", ""⟩ 0 60000 (by decide) (by decide) (by decide)).2.2.2
      (by decide)⟩

/-- A cached aggregation with combined text A next to a hub that now
returns B, to separate the injected clock from the ambient Date.now. -/
def aggStale : Aggregation :=
  { topic := "t", originalTopic := "t", combinedText := "A",
    entries := [], errors := [], timestamp := 0 }

/-- A hub stub whose gather resolves with combined text B. -/
def gFresh : GatherFn := fun _ _ => Except.ok ⟨"B", [], []⟩

/-- C8 counterexample: two respond runs with the same messages, the same
engine state and the same injected clock value, but ambient Date.now
values on either side of the TTL boundary, produce different response
strings: one serves the cached dossier A, the other refetches and shows
B. -/
theorem c8_counterexample :
    (respond gFresh rEmpty aggStale [⟨"user", "t"⟩] ⟨"", ""⟩ 0 60000).1
    ≠ (respond gFresh rEmpty aggStale [⟨"user", "t"⟩] ⟨"", ""⟩ 60000 60000).1 := by
  decide

/-- C8 (amended): two runs of respond with the same messages list, the
same engine state (cached aggregation and memory contents), the same
injected clock value and the same ambient Date.now value produce
identical response strings. -/
theorem c8_respond_deterministic (gatherFn : GatherFn) (recallFn : RecallFn)
    (agg1 agg2 : Aggregation) (msgs1 msgs2 : List Msg) (clk1 clk2 : JsDate)
    (now1 now2 ttl1 ttl2 : Int)
    (ha : agg1 = agg2) (hm : msgs1 = msgs2) (hclk : clk1 = clk2)
    (hnow : now1 = now2) (httl : ttl1 = ttl2) :
    (respond gatherFn recallFn agg1 msgs1 clk1 now1 ttl1).1
      = (respond gatherFn recallFn agg2 msgs2 clk2 now2 ttl2).1 := by
  rw [ha, hm, hclk, hnow, httl]

/-- C8 witness: the determinism theorem applied at one concrete run. -/
theorem c8_respond_deterministic_witness :
    (respond gFresh rEmpty aggStale [⟨"user", "t"⟩] ⟨"i", "h"⟩ 5 60000).1
      = (respond gFresh rEmpty aggStale [⟨"user", "t"⟩] ⟨"i", "h"⟩ 5 60000).1 :=
  c8_respond_deterministic gFresh rEmpty aggStale aggStale
    [⟨"user", "t"⟩] [⟨"user", "t"⟩] ⟨"i", "h"⟩ ⟨"i", "h"⟩ 5 5 60000 60000
    rfl rfl rfl rfl rfl

set_option maxRecDepth 40000 in
/-- C9 counterexample: a 901 character combinedText is presented as its
first 900 characters plus an ellipsis, a dossier text of 901 characters,
so the text shown exceeds 900 characters. -/
theorem c9_counterexample :
    aggBang.combinedText ≠ ""
    ∧ buildKnowledgeBlock aggBang
        = "📚 Интернет-досье:\n" ++ limitText aggBang.combinedText 900
    ∧ ¬ ((limitText aggBang.combinedText 900).length ≤ 900) := by
  refine ⟨by decide, by rfl, by decide⟩

/-- C9 (amended): whenever the aggregation used by respond has a
non-empty combinedText, the knowledge block presents that combinedText
truncated to its first 900 characters with an ellipsis appended when it
was longer; the dossier text never exceeds 901 characters, and equals
combinedText itself whenever combinedText is at most 900 characters
long. -/
theorem c9_dossier_truncation (data : Aggregation)
    (h : data.combinedText ≠ "") :
    buildKnowledgeBlock data
      = "📚 Интернет-досье:\n" ++ limitText data.combinedText 900
    ∧ (limitText data.combinedText 900).length ≤ 901
    ∧ (data.combinedText.length ≤ 900 →
        limitText data.combinedText 900 = data.combinedText)
    ∧ (data.combinedText.length > 900 →
        limitText data.combinedText 900
          = String.mk (data.combinedText.data.take 900) ++ "…") := by
  refine ⟨by unfold buildKnowledgeBlock; rw [if_pos h], ?_, limitText_of_le _, ?_⟩
  · unfold limitText
    by_cases hc : data.combinedText = ""
    · rw [if_pos hc]
      decide
    · rw [if_neg hc]
      by_cases hl : data.combinedText.length > 900
      · rw [if_pos hl, strLength_append]
        have h1 : (String.mk (data.combinedText.data.take 900)).length ≤ 900 := by
          show (data.combinedText.data.take 900).length ≤ 900
          rw [List.length_take]
          omega
        have h2 : ("…" : String).length = 1 := rfl
        omega
      · rw [if_neg hl]
        omega
  · intro hl
    unfold limitText
    rw [if_neg h, if_pos hl]

/-- C9 witness: a short dossier is shown whole and within the bound. -/
theorem c9_dossier_truncation_witness :
    ("facts" : String) ≠ ""
    ∧ buildKnowledgeBlock ⟨"t", "t", "facts", [], [], 0⟩
        = "📚 Интернет-досье:\n" ++ limitText "facts" 900
    ∧ (limitText "facts" 900).length ≤ 901 :=
  ⟨by decide,
    (c9_dossier_truncation ⟨"t", "t", "facts", [], [], 0⟩ (by decide)).1,
    (c9_dossier_truncation ⟨"t", "t", "facts", [], [], 0⟩ (by decide)).2.1⟩

end Milana.FreeTier

namespace Milana.Gpt

/-- The observable state of createGptIntegration: the in-memory key, the
stored gptApiKey value, the key input field, and the status line with
its severity colour. -/
structure GptState where
  gptApiKey : String
  storedKey : Option String
  fieldValue : String
  statusText : String
  statusIsError : Bool
deriving DecidableEq, Repr

/-- The error kinds gpt.js tags onto thrown errors; apiError and
freeTierFailed carry their message. -/
inductive GptError where
  | noKey : GptError
  | apiError : String → GptError
  | emptyResponse : GptError
  | freeTierEmpty : GptError
  | freeTierFailed : String → GptError
deriving DecidableEq, Repr

/-- The code field of each tagged error. -/
def GptError.code : GptError → String
  | GptError.noKey => "NO_KEY"
  | GptError.apiError _ => "API_ERROR"
  | GptError.emptyResponse => "EMPTY_RESPONSE"
  | GptError.freeTierEmpty => "FREE_TIER_EMPTY"
  | GptError.freeTierFailed _ => "FREE_TIER_FAILED"

/-- The explicit value argument of persistKey: a missing argument is the
JavaScript undefined, a present string is trimmed (the typeof check of
gpt.js). -/
def resolveInput : Option String → String
  | some s => jsTrim s
  | none => ""

/-- gpt.js persistKey: resolve the key from the explicit value or the
trimmed input field; when nothing resolves return the empty string and
touch nothing; otherwise store the key when changed, sync the field, and
set the status unless silent.  The result pairs the returned string with
the successor state. -/
def persistKey (st : GptState) (value : Option String) (silent : Bool)
    (message : Option String) : String × GptState :=
  let inputValue := resolveInput value
  let fieldValue := jsTrim st.fieldValue
  let resolved := if inputValue ≠ "" then inputValue else fieldValue
  if resolved = "" then ("", st)
  else
    let st1 := if resolved ≠ st.gptApiKey then
        { st with gptApiKey := resolved, storedKey := some resolved }
      else st
    let st2 := if st1.fieldValue ≠ st1.gptApiKey then
        { st1 with fieldValue := st1.gptApiKey }
      else st1
    let st3 := if silent then st2
      else { st2 with
        statusText := message.getD "Ключ сохранён в локальном хранилище браузера.",
        statusIsError := false }
    (resolved, st3)

/-- gpt.js ensureKey: when no key is in memory, try a silent persistKey
with an empty explicit value (picking up the field), then throw the
NO_KEY tagged error when the key is still absent. -/
def ensureKey (st : GptState) : Except GptError String × GptState :=
  let st1 := if st.gptApiKey = "" then (persistKey st (some "") true none).2 else st
  if st1.gptApiKey = "" then (Except.error GptError.noKey, st1)
  else (Except.ok st1.gptApiKey, st1)

/-- What the free-tier engine's respond does for the delegation branch of
query: resolve with an answer string, reject with a code-tagged error, or
reject with a plain failure message. -/
inductive FreeTierOutcome where
  | ok : String → FreeTierOutcome
  | errCoded : GptError → FreeTierOutcome
  | errPlain : String → FreeTierOutcome

/-- The relevant shape of the chat completion transport's answer: the ok
flag and status of the response, and the optional error message and
completion content of its decoded JSON body. -/
structure ApiResponse where
  ok : Bool
  status : Nat
  errorMessage : Option String
  content : Option String
deriving DecidableEq, Repr

/-- The outcome of gpt.js query: a resolved text, a tagged rejection, or
the undefined value query returns when the final ensureKey finds a key
after all. -/
inductive QueryOutcome where
  | ok : String → QueryOutcome
  | err : GptError → QueryOutcome
  | undef : QueryOutcome
deriving DecidableEq, Repr

/-- gpt.js query: with a key in memory, run the authenticated completion
call against the transport (API_ERROR on a non-ok status with the server
message or the fallback, EMPTY_RESPONSE on a blank completion); with no
key, delegate to the attached free-tier engine when useFreeTier is set
(trimming the answer, tagging a blank one FREE_TIER_EMPTY, passing
code-tagged rejections through and wrapping plain ones as
FREE_TIER_FAILED); otherwise fall through to ensureKey.  The boolean
records whether the transport function was invoked. -/
def query (st : GptState) (freeTier : Option (List Msg → FreeTierOutcome))
    (apiResp : ApiResponse) (messages : List Msg) (useFreeTier : Bool) :
    QueryOutcome × GptState × Bool :=
  if st.gptApiKey ≠ "" then
    if apiResp.ok = false then
      (QueryOutcome.err (GptError.apiError
          (apiResp.errorMessage.getD
            ("Ошибка API (" ++ toString apiResp.status ++ ")"))),
        st, true)
    else
      match apiResp.content with
      | some c =>
        if jsTrim c = "" then (QueryOutcome.err GptError.emptyResponse, st, true)
        else (QueryOutcome.ok (jsTrim c), st, true)
      | none => (QueryOutcome.err GptError.emptyResponse, st, true)
  else
    match useFreeTier, freeTier with
    | true, some f =>
      (match f messages with
        | FreeTierOutcome.ok answer =>
          if jsTrim answer = "" then
            (QueryOutcome.err GptError.freeTierEmpty, st, false)
          else (QueryOutcome.ok (jsTrim answer), st, false)
        | FreeTierOutcome.errCoded e => (QueryOutcome.err e, st, false)
        | FreeTierOutcome.errPlain m =>
          (QueryOutcome.err (GptError.freeTierFailed m), st, false))
    | _, _ =>
      match ensureKey st with
      | (Except.error e, st1) => (QueryOutcome.err e, st1, false)
      | (Except.ok _, st1) => (QueryOutcome.undef, st1, false)

/-- C4: with no stored key, an empty key input field, useFreeTier set and
an attached free-tier engine whose respond resolves to a non-blank
string, query returns that response trimmed, leaves the state unchanged
and never invokes the transport function. -/
theorem c4_query_free_tier (st : GptState) (f : List Msg → FreeTierOutcome)
    (apiResp : ApiResponse) (messages : List Msg) (s : String)
    (hkey : st.gptApiKey = "") (hstored : st.storedKey = none)
    (hfield : st.fieldValue = "")
    (hresp : f messages = FreeTierOutcome.ok s) (hnb : jsTrim s ≠ "") :
    query st (some f) apiResp messages true
      = (QueryOutcome.ok (jsTrim s), st, false) := by
  obtain ⟨k, sk, fv, stx, se⟩ := st
  simp only at hkey hstored hfield
  subst hkey hstored hfield
  simp [query, hresp, hnb]

/-- C4 witness: a free-tier answer with surrounding whitespace comes back
trimmed and the transport flag stays false. -/
theorem c4_query_free_tier_witness :
    jsTrim " Привет! " ≠ ""
    ∧ query ⟨"", none, "", "", false⟩ (some (fun _ => FreeTierOutcome.ok " Привет! "))
        ⟨true, 200, none, none⟩ [⟨"user", "hi"⟩] true
      = (QueryOutcome.ok (jsTrim " Привет! "), ⟨"", none, "", "", false⟩, false) :=
  ⟨by decide,
    c4_query_free_tier ⟨"", none, "", "", false⟩
      (fun _ => FreeTierOutcome.ok " Привет! ") ⟨true, 200, none, none⟩
      [⟨"user", "hi"⟩] " Привет! " rfl rfl rfl rfl (by decide)⟩

/-- C5: with no stored key, an empty key input field and either no
free-tier engine attached or useFreeTier false, query rejects with the
error whose code field is NO_KEY. -/
theorem c5_query_no_key (st : GptState)
    (freeTier : Option (List Msg → FreeTierOutcome)) (apiResp : ApiResponse)
    (messages : List Msg) (useFreeTier : Bool)
    (hkey : st.gptApiKey = "") (hfield : st.fieldValue = "")
    (hno : useFreeTier = false ∨ freeTier = none) :
    (query st freeTier apiResp messages useFreeTier).1
      = QueryOutcome.err GptError.noKey
    ∧ GptError.code GptError.noKey = "NO_KEY" := by
  refine ⟨?_, rfl⟩
  obtain ⟨k, sk, fv, stx, se⟩ := st
  simp only at hkey hfield
  subst hkey hfield
  rcases hno with h | h
  · subst h
    cases freeTier <;>
      simp [query, ensureKey, persistKey, resolveInput, jsTrim_empty]
  · subst h
    cases useFreeTier <;>
      simp [query, ensureKey, persistKey, resolveInput, jsTrim_empty]

/-- C5 witness: a state with no key and an empty field rejects with code
NO_KEY when no free-tier engine is attached. -/
theorem c5_query_no_key_witness :
    (query ⟨"", none, "", "", false⟩ none ⟨true, 200, none, none⟩
        [⟨"user", "hi"⟩] true).1 = QueryOutcome.err GptError.noKey
    ∧ GptError.code GptError.noKey = "NO_KEY" :=
  c5_query_no_key ⟨"", none, "", "", false⟩ none ⟨true, 200, none, none⟩
    [⟨"user", "hi"⟩] true rfl rfl (Or.inr rfl)

/-- C10: persistKey can set or replace a key but never clears one: when
the explicit value and the key input field are both empty or blank after
trimming, persistKey returns the empty string and leaves the whole state
(in-memory key, stored value, input field, status) unchanged. -/
theorem c10_persistKey_no_clear (st : GptState) (value : Option String)
    (silent : Bool) (message : Option String)
    (hval : resolveInput value = "") (hfield : jsTrim st.fieldValue = "") :
    persistKey st value silent message = ("", st) := by
  unfold persistKey
  simp [hval, hfield]

/-- C10 witness: a blank explicit value and a blank field leave a state
holding a key untouched and return the empty string. -/
theorem c10_persistKey_no_clear_witness :
    resolveInput (some "  ") = ""
    ∧ persistKey ⟨"sk-live", some "sk-live", "  ", "готово", false⟩
        (some "  ") false (some "msg")
      = ("", ⟨"sk-live", some "sk-live", "  ", "готово", false⟩) :=
  ⟨by decide,
    c10_persistKey_no_clear ⟨"sk-live", some "sk-live", "  ", "готово", false⟩
      (some "  ") false (some "msg") (by decide) (by decide)⟩

end Milana.Gpt
